import Mathlib

/-!
Verification of the hana Celestia DA adapter against its specification.

Bytes are modelled as `List Nat` (each entry a byte value below 256 where it
matters).  Machine integers are modelled as `Nat` with explicit bounds or
explicit `% 256` arithmetic.  External library functions that the repository
merely calls (keccak256, trie proof verification, header hashing, the share
and Merkle proof verifiers) are taken as function parameters, so every
theorem quantifies over their behaviour; everything the repository itself
computes (RLP encodings, byte layouts, control flow) is embedded concretely.
-/

namespace Hana

/-- Big-endian digit extraction with explicit fuel (structural, so that the
kernel can evaluate it; `fuel ≥ n` always suffices since `n / 256 < n`). -/
def natToBEBytesAux : Nat → Nat → List Nat
  | 0, _ => []
  | fuel + 1, n => if n = 0 then [] else natToBEBytesAux fuel (n / 256) ++ [n % 256]

/-- Minimal big-endian byte representation of a natural number (`0` encodes
to the empty list), as produced by `to_be_bytes` after stripping leading
zeros; this is the integer payload used by canonical RLP. -/
def natToBEBytes (n : Nat) : List Nat :=
  natToBEBytesAux n n

/-- Fixed-width big-endian bytes of `n` (width `w`), as in `to_be_bytes::<w>()`. -/
def beFixed : Nat → Nat → List Nat
  | 0, _ => []
  | w + 1, n => beFixed w (n / 256) ++ [n % 256]

/-- Fixed-width little-endian bytes of `n` (width `w`), as in `to_le_bytes`. -/
def leFixed : Nat → Nat → List Nat
  | 0, _ => []
  | w + 1, n => n % 256 :: leFixed w (n / 256)

/-- Recombine a little-endian byte list into a natural number, as in
`u64::from_le_bytes`. -/
def fromLE : List Nat → Nat
  | [] => 0
  | b :: rest => b + 256 * fromLE rest

/-- RLP header for a byte string of length `len` (short or long form). -/
def rlpStrHeader (len : Nat) : List Nat :=
  if len ≤ 55 then [0x80 + len]
  else (0xb7 + (natToBEBytes len).length) :: natToBEBytes len

/-- Canonical RLP encoding of a byte string, as in `alloy_rlp`:
a single byte below `0x80` encodes as itself, otherwise a length header
precedes the bytes. -/
def rlpEncodeBytes (bs : List Nat) : List Nat :=
  match bs with
  | [b] => if b < 0x80 then [b] else [0x81, b]
  | _ => rlpStrHeader bs.length ++ bs

/-- RLP encoding of an unsigned integer (`alloy_rlp::encode` on `u64`,
`U256`, or `u8`): canonical RLP of its minimal big-endian bytes. -/
def rlpEncodeNat (n : Nat) : List Nat :=
  rlpEncodeBytes (natToBEBytes n)

/-- RLP header for a list whose encoded payload has length `len`. -/
def rlpListHeader (len : Nat) : List Nat :=
  if len ≤ 55 then [0xc0 + len]
  else (0xf7 + (natToBEBytes len).length) :: natToBEBytes len

/-- Wrap an already-concatenated RLP payload in a list header, as
`alloy_rlp::encode_list` does after encoding each element. -/
def rlpWrapList (payload : List Nat) : List Nat :=
  rlpListHeader payload.length ++ payload

/-- `alloy_rlp`'s `Encodable` instance for `Vec<u8>`: a `Vec<T>` encodes as
an RLP *list* of its elements, and `u8` encodes as an integer, so a byte
vector becomes a list of single-byte integers (not a byte string). -/
def rlpEncodeVecU8 (bs : List Nat) : List Nat :=
  rlpWrapList (bs.map rlpEncodeNat).flatten

/-- Drop leading zero bytes, as canonical RLP of a storage value requires. -/
def trimLeadingZeros : List Nat → List Nat
  | [] => []
  | b :: rest => if b = 0 then trimLeadingZeros rest else b :: rest

/-- Unpack bytes into their nibble path, as `alloy_trie::Nibbles::unpack`. -/
def nibblesUnpack (bs : List Nat) : List Nat :=
  (bs.map fun b => [b / 16 % 16, b % 16]).flatten

end Hana

namespace Hana.Blobstream

/-- `DATA_COMMITMENTS_SLOT` from `blobstream.rs`. -/
def DATA_COMMITMENTS_SLOT : Nat := 254

/-- `encode_data_root_tuple` from `blobstream.rs`: 24 zero bytes, the
big-endian 8-byte height, then the 32-byte data root. -/
def encode_data_root_tuple (height : Nat) (data_root : List Nat) : List Nat :=
  List.replicate 24 0 ++ beFixed 8 height ++ data_root

/-- `calculate_mapping_slot` from `blobstream.rs`: keccak256 of the 32-byte
big-endian key followed by the 32-byte big-endian mapping slot.  The keccak
function itself is an external library call and is passed as a parameter. -/
def calculate_mapping_slot (keccak256 : List Nat → List Nat)
    (mapping_slot : Nat) (key : Nat) : List Nat :=
  keccak256 (beFixed 32 key ++ beFixed 32 mapping_slot)

/-- The expected account leaf built by `verify_data_commitment_storage`
(`blobstream.rs` lines 191-206): each field is RLP-encoded with
`alloy_rlp::encode`, and the four resulting byte vectors are then passed to
`alloy_rlp::encode_list::<_, Vec<u8>>` in the order nonce, balance,
code-hash, storage-root, which re-encodes each `Vec<u8>` as an RLP list of
byte integers. -/
def account_leaf (blobstream_nonce blobstream_balance : Nat)
    (blobstream_code_hash storage_root : List Nat) : List Nat :=
  let nonce_encoded := rlpEncodeNat blobstream_nonce
  let balance_encoded := rlpEncodeNat blobstream_balance
  let code_hash_encoded := rlpEncodeBytes blobstream_code_hash
  let storage_root_encoded := rlpEncodeBytes storage_root
  rlpWrapList (rlpEncodeVecU8 nonce_encoded ++ rlpEncodeVecU8 balance_encoded ++
    rlpEncodeVecU8 code_hash_encoded ++ rlpEncodeVecU8 storage_root_encoded)

/-- Modelled from the spec: the account leaf the specification demands, the
RLP-encoded list `[nonce, balance, storage_root, code_hash]` in exactly that
order, matching Ethereum account encoding. -/
def account_leaf_spec (nonce balance : Nat)
    (storage_root code_hash : List Nat) : List Nat :=
  rlpWrapList (rlpEncodeNat nonce ++ rlpEncodeNat balance ++
    rlpEncodeBytes storage_root ++ rlpEncodeBytes code_hash)

/-- The expected storage-slot leaf built by `verify_data_commitment_storage`
(`blobstream.rs` lines 224-228): a fixed `0xa0` prefix followed by the raw
32-byte commitment, regardless of leading zero bytes. -/
def storage_leaf (expected_commitment : List Nat) : List Nat :=
  0xa0 :: expected_commitment

/-- Modelled from the spec: the storage-slot leaf the specification demands,
the canonical RLP encoding of the commitment's big-endian bytes with leading
zero bytes trimmed (all-zero commitments encode to the single byte 0x80). -/
def storage_leaf_spec (expected_commitment : List Nat) : List Nat :=
  rlpEncodeBytes (trimLeadingZeros expected_commitment)

/-- The L1 block header as used by `verify_data_commitment_storage`: only its
`state_root` is projected; the remaining RLP-able fields are kept opaque. -/
structure L1Header where
  state_root : List Nat
  rest : List Nat
deriving DecidableEq, Repr

/-- Outcome of `verify_data_commitment_storage`: success, a returned
`ProofVerificationError` (modelled by its message), or a Rust panic from the
`assert!` on the header hash. -/
inductive VResult where
  | ok : VResult
  | err (e : String) : VResult
  | panic (msg : String) : VResult
deriving DecidableEq, Repr

/-- Whether a `VResult` is a returned error (not a panic, not success). -/
def VResult.isErr : VResult → Bool
  | .err _ => true
  | _ => false

/-- Whether a `VResult` is success. -/
def VResult.isOk : VResult → Bool
  | .ok => true
  | _ => false

/-- `verify_data_commitment_storage` from `blobstream.rs`.  The external
library calls -- header hashing (`Header::hash_slow`), `keccak256`, and
`alloy_trie::proof::verify_proof` -- are passed as parameters; everything
else follows the source line by line: assert the recomputed header hash
equals `l1_block_hash` (a failed `assert!` is a panic), verify the account
proof for the `account_leaf` at the nibble path of the keccak of the
address, then verify the storage proof for the `storage_leaf` at the nibble
path of the keccak of the mapping slot. -/
def verify_data_commitment_storage
    (hash_slow : L1Header → List Nat)
    (keccak256 : List Nat → List Nat)
    (verify_proof : List Nat → List Nat → Option (List Nat) → List (List Nat) → Except String Unit)
    (storage_root : List Nat) (storage_proof : List (List Nat))
    (account_proof : List (List Nat)) (commitment_nonce : Nat)
    (expected_commitment : List Nat) (expected_blobstream_address : List Nat)
    (blobstream_balance : Nat) (blobstream_nonce : Nat)
    (blobstream_code_hash : List Nat) (block_header : L1Header)
    (l1_block_hash : List Nat) : VResult :=
  let block_hash := hash_slow block_header
  if block_hash ≠ l1_block_hash then
    .panic "computed block hash must match host l1 head"
  else
    let expected := account_leaf blobstream_nonce blobstream_balance
      blobstream_code_hash storage_root
    let nibbles := nibblesUnpack (keccak256 expected_blobstream_address)
    match verify_proof block_header.state_root nibbles (some expected) account_proof with
    | .error e => .err e
    | .ok _ =>
      let slot := calculate_mapping_slot keccak256 DATA_COMMITMENTS_SLOT commitment_nonce
      let nibbles2 := nibblesUnpack (keccak256 slot)
      let expected_with_prefix := storage_leaf expected_commitment
      match verify_proof storage_root nibbles2 (some expected_with_prefix) storage_proof with
      | .error e => .err e
      | .ok _ => .ok

end Hana.Blobstream

namespace Hana

/-- Decode one hexadecimal digit. -/
def hexDigit (c : Char) : Option Nat :=
  if '0' ≤ c ∧ c ≤ '9' then some (c.toNat - '0'.toNat)
  else if 'a' ≤ c ∧ c ≤ 'f' then some (c.toNat - 'a'.toNat + 10)
  else if 'A' ≤ c ∧ c ≤ 'F' then some (c.toNat - 'A'.toNat + 10)
  else none

/-- Decode a hexadecimal character list into bytes (two digits per byte). -/
def hexBytes : List Char → Option (List Nat)
  | [] => some []
  | [_] => none
  | c1 :: c2 :: rest =>
    match hexDigit c1, hexDigit c2, hexBytes rest with
    | some h, some l, some r => some ((16 * h + l) :: r)
    | _, _, _ => none

/-- Strip an optional `0x` prefix from a hex character list. -/
def strip0x : List Char → List Char
  | '0' :: 'x' :: rest => rest
  | l => l

end Hana

namespace Hana.Blobstream

/-- The chain-id enum from `blobstream.rs`. -/
inductive BlobstreamChainIds where
  | EthereumMainnet
  | ArbitrumOne
  | Base
  | Sepolia
  | ArbitrumSepolia
  | BaseSepolia
deriving DecidableEq, Repr

/-- `BlobstreamChainIds::from_u64` from `blobstream.rs`: the six-entry
static chain-id table. -/
def BlobstreamChainIds.from_u64 (id : Nat) : Option BlobstreamChainIds :=
  if id = 1 then some .EthereumMainnet
  else if id = 42161 then some .ArbitrumOne
  else if id = 8453 then some .Base
  else if id = 11155111 then some .Sepolia
  else if id = 421614 then some .ArbitrumSepolia
  else if id = 84532 then some .BaseSepolia
  else none

/-- The `address!` compile-time hex literal from `alloy_primitives`,
modelled as hex decoding after stripping the `0x` prefix (the macro only
accepts valid literals, so the fallback is never reached). -/
def addressLit (s : String) : List Nat :=
  (hexBytes (strip0x s.data)).getD []

/-- `BlobstreamChainIds::blostream_address` from `blobstream.rs`
(the function name's typo is the source's). -/
def BlobstreamChainIds.blostream_address : BlobstreamChainIds → List Nat
  | .EthereumMainnet => addressLit "0x7Cf3876F681Dbb6EdA8f6FfC45D66B996Df08fAe"
  | .ArbitrumOne => addressLit "0xA83ca7775Bc2889825BcDeDfFa5b758cf69e8794"
  | .Base => addressLit "0xA83ca7775Bc2889825BcDeDfFa5b758cf69e8794"
  | .Sepolia => addressLit "0xF0c6429ebAB2e7DC6e05DaFB61128bE21f13cb1e"
  | .ArbitrumSepolia => addressLit "0xc3e209eb245Fd59c8586777b499d6A665DF3ABD2"
  | .BaseSepolia => addressLit "0xc3e209eb245Fd59c8586777b499d6A665DF3ABD2"

end Hana.Blobstream

namespace Hana.ProofsTypes

/-- The chain-id enum from `proofs/src/types.rs` (an independent copy). -/
inductive BlobstreamChainIds where
  | EthereumMainnet
  | ArbitrumOne
  | Base
  | Sepolia
  | ArbitrumSepolia
  | BaseSepolia
deriving DecidableEq, Repr

/-- `BlobstreamChainIds::from_u64` from `proofs/src/types.rs`. -/
def BlobstreamChainIds.from_u64 (id : Nat) : Option BlobstreamChainIds :=
  if id = 1 then some .EthereumMainnet
  else if id = 42161 then some .ArbitrumOne
  else if id = 8453 then some .Base
  else if id = 11155111 then some .Sepolia
  else if id = 421614 then some .ArbitrumSepolia
  else if id = 84532 then some .BaseSepolia
  else none

/-- `Address::from_str` as used in `proofs/src/types.rs`: case-insensitive
hex parsing of the literal with its `0x` prefix, `.unwrap()`-ed; the source
literals all parse, so the fallback is never reached. -/
def addressFromStr (s : String) : List Nat :=
  (hexBytes (strip0x s.data)).getD []

/-- `BlobstreamChainIds::blostream_address` from `proofs/src/types.rs`. -/
def BlobstreamChainIds.blostream_address : BlobstreamChainIds → List Nat
  | .EthereumMainnet => addressFromStr "0x7Cf3876F681Dbb6EdA8f6FfC45D66B996Df08fAe"
  | .ArbitrumOne => addressFromStr "0xA83ca7775Bc2889825BcDeDfFa5b758cf69e8794"
  | .Base => addressFromStr "0xA83ca7775Bc2889825BcDeDfFa5b758cf69e8794"
  | .Sepolia => addressFromStr "0xF0c6429ebAB2e7DC6e05DaFB61128bE21f13cb1e"
  | .ArbitrumSepolia => addressFromStr "0xc3e209eb245Fd59c8586777b499d6A665DF3ABD2"
  | .BaseSepolia => addressFromStr "0xc3e209eb245Fd59c8586777b499d6A665DF3ABD2"

end Hana.ProofsTypes

namespace Hana.Provider

open Hana.Blobstream

/-- Modelled from the spec: the `blobstream_address` helper called by
`provider.rs` is not itself under `src/`; per the spec it returns the entry
of the canonical chain-id table for the given L1 chain id, or none. -/
def blobstream_address (chain_id : Nat) : Option (List Nat) :=
  (BlobstreamChainIds.from_u64 chain_id).map BlobstreamChainIds.blostream_address

/-- Modelled from the spec: the `BlobstreamProof` bundle carried inside the
oracle payload as read by `provider.rs` (the struct itself lives in
`blobstream.rs`; the two proof objects are opaque here and are consumed only
by their parametrized verifiers). -/
structure BlobstreamProofData where
  data_root : List Nat
  data_commitment : List Nat
  data_root_tuple_proof : List Nat
  share_proof : List Nat
  proof_nonce : Nat
  storage_root : List Nat
  storage_proof : List (List Nat)
  account_proof : List (List Nat)
  blobstream_balance : Nat
  blobstream_nonce : Nat
  blobstream_code_hash : List Nat
  block_header : L1Header
deriving DecidableEq, Repr

/-- Modelled from the spec: the `OraclePayload` variant consumed by
`provider.rs` (a blob plus the `BlobstreamProof` bundle); only the fields the
provider reads are modelled. -/
structure OraclePayloadP where
  blob : List Nat
  blobstream_proof : BlobstreamProofData
deriving DecidableEq, Repr

/-- `BootInfo` as read by `provider.rs`: the trusted L1 head and the rollup
config's L1 chain id. -/
structure BootInfo where
  l1_head : List Nat
  l1_chain_id : Nat
deriving DecidableEq, Repr

/-- Outcome of `OracleCelestiaProvider::blob_get`: the returned blob, a
returned `OracleProviderError` (modelled by its message), or a Rust panic
(from an `expect` or a propagated assertion). -/
inductive BlobGetResult where
  | ok (blob : List Nat) : BlobGetResult
  | err (e : String) : BlobGetResult
  | panic (msg : String) : BlobGetResult
deriving DecidableEq, Repr

/-- Whether a `BlobGetResult` is a returned error. -/
def BlobGetResult.isErr : BlobGetResult → Bool
  | .err _ => true
  | _ => false

/-- `OracleCelestiaProvider::blob_get` from `provider.rs`.  The oracle
transport is abstracted: `oracle_result` is the preimage returned for the
40-byte key and `from_bytes` is the payload decoder (its failure is an
`expect`, hence a panic).  The share-proof verifier, the data-root-tuple
verifier, and the externals of `verify_data_commitment_storage` are
parameters.  Control flow mirrors the source: decode, resolve the canonical
Blobstream address (`expect`, hence a panic when absent), verify the data
commitment (errors are surfaced as oracle-provider errors and panics
propagate), verify the share proof against the data root, verify the
encoded data-root tuple against the data commitment, then return the blob. -/
def blob_get
    (from_bytes : List Nat → Option OraclePayloadP)
    (share_verify : List Nat → List Nat → Except String Unit)
    (tuple_verify : List Nat → List Nat → List Nat → Except String Unit)
    (hash_slow : L1Header → List Nat)
    (keccak256 : List Nat → List Nat)
    (verify_proof : List Nat → List Nat → Option (List Nat) → List (List Nat) → Except String Unit)
    (height : Nat) (commitment : List Nat)
    (oracle_result : List Nat) (boot : BootInfo) : BlobGetResult :=
  match from_bytes oracle_result with
  | none => .panic "Failed to deserialize Celestia Oracle Payload"
  | some payload =>
    match blobstream_address boot.l1_chain_id with
    | none => .panic "No canonical Blobstream address found for chain id"
    | some expected_blobstream_address =>
      match verify_data_commitment_storage hash_slow keccak256 verify_proof
        payload.blobstream_proof.storage_root
        payload.blobstream_proof.storage_proof
        payload.blobstream_proof.account_proof
        payload.blobstream_proof.proof_nonce
        payload.blobstream_proof.data_commitment
        expected_blobstream_address
        payload.blobstream_proof.blobstream_balance
        payload.blobstream_proof.blobstream_nonce
        payload.blobstream_proof.blobstream_code_hash
        payload.blobstream_proof.block_header
        boot.l1_head with
      | .panic m => .panic m
      | .err e => .err e
      | .ok =>
        match share_verify payload.blobstream_proof.share_proof
            payload.blobstream_proof.data_root with
        | .error e => .err e
        | .ok _ =>
          match tuple_verify payload.blobstream_proof.data_root_tuple_proof
              (encode_data_root_tuple height payload.blobstream_proof.data_root)
              payload.blobstream_proof.data_commitment with
          | .error e => .err e
          | .ok _ => .ok payload.blob

end Hana.Provider

namespace Hana.Pipe

/-- `PipelineError` as far as this crate constructs it: the EOF marker or a
provider-supplied error. -/
inductive PipelineError where
  | Eof
  | Provider (s : String)
deriving DecidableEq, Repr

/-- `PipelineErrorKind` from `kona_derive`: the retry classification. -/
inductive PipelineErrorKind where
  | Critical (e : PipelineError)
  | Temporary (e : PipelineError)
  | Reset (e : PipelineError)
deriving DecidableEq, Repr

end Hana.Pipe

namespace Hana.Source

open Hana.Pipe

/-- `CelestiaDASource` state from `source.rs`: the buffered blobs (the
fetcher capability is passed to the operations as a function). -/
structure CelestiaDASource where
  data : List (List Nat)
deriving DecidableEq, Repr

/-- `CelestiaDASource::load_blobs` from `source.rs`: calls the fetcher
unconditionally, pushes a fetched blob, and re-raises a fetcher error under
the same classification.  The third component counts fetcher invocations
performed by this call (always one). -/
def load_blobs (fetcher : Nat → List Nat → Except PipelineErrorKind (List Nat))
    (s : CelestiaDASource) (height : Nat) (commitment : List Nat) :
    Except PipelineErrorKind Unit × CelestiaDASource × Nat :=
  match fetcher height commitment with
  | .ok blob => (.ok (), ⟨s.data ++ [blob]⟩, 1)
  | .error e =>
    match e with
    | .Critical x => (.error (.Critical x), s, 1)
    | .Temporary x => (.error (.Temporary x), s, 1)
    | .Reset x => (.error (.Reset x), s, 1)

/-- `CelestiaDASource::next_data` from `source.rs`: an empty buffer yields
the temporary EOF pipeline result, otherwise the head is removed and
returned. -/
def next_data (s : CelestiaDASource) :
    Except (Except PipelineErrorKind (List Nat)) (List Nat) × CelestiaDASource :=
  match s.data with
  | [] => (.error (.error (.Temporary .Eof)), s)
  | d :: rest => (.ok d, ⟨rest⟩)

/-- `CelestiaDASource::next` from `source.rs`: always `load_blobs` (hence
always one fetcher call), then pop the head.  The third component is the
number of fetcher invocations this call performed. -/
def next (fetcher : Nat → List Nat → Except PipelineErrorKind (List Nat))
    (s : CelestiaDASource) (height : Nat) (commitment : List Nat) :
    Except PipelineErrorKind (List Nat) × CelestiaDASource × Nat :=
  match load_blobs fetcher s height commitment with
  | (.error e, s1, n) => (.error e, s1, n)
  | (.ok _, s1, n) =>
    match next_data s1 with
    | (.error r, s2) => (r, s2, n)
    | (.ok d, s2) => (.ok d, s2, n)

/-- `CelestiaDASource::clear` from `source.rs`. -/
def clear (_s : CelestiaDASource) : CelestiaDASource := ⟨[]⟩

end Hana.Source

namespace Hana.Mux

open Hana.Pipe

/-- Outcome of `CelestiaDADataSource::next`: a frame, a pipeline error, or a
Rust panic from an unguarded index or slice. -/
inductive MuxResult where
  | ok (b : List Nat) : MuxResult
  | err (e : PipelineErrorKind) : MuxResult
  | panic (msg : String) : MuxResult
deriving DecidableEq, Repr

/-- Whether a `MuxResult` is a `Critical` pipeline error. -/
def MuxResult.isCritical : MuxResult → Bool
  | .err (.Critical _) => true
  | _ => false

/-- `CelestiaDADataSource::next` from `celestia.rs`.  `eth_result` is the
frame produced by the underlying Ethereum source (its error propagates via
`?`), and `celestia_next` abstracts `self.celestia_source.next`.  The
source indexes `pointer_data[2]` (panics when the frame is shorter than 3
bytes), compares it with `0x0c`, and on a match slices `[3..11]` for the
little-endian height and `[11..43]` for the commitment (panicking when the
frame is shorter than 11 or 43 bytes); otherwise the frame is returned
unchanged. -/
def next (eth_result : Except PipelineErrorKind (List Nat))
    (celestia_next : Nat → List Nat → Except PipelineErrorKind (List Nat)) :
    MuxResult :=
  match eth_result with
  | .error e => .err e
  | .ok pointer_data =>
    if pointer_data.length ≤ 2 then .panic "index out of bounds"
    else if pointer_data.getD 2 0 = 0x0c then
      if pointer_data.length < 11 then .panic "slice index out of range"
      else if pointer_data.length < 43 then .panic "slice index out of range"
      else
        let height := fromLE ((pointer_data.drop 3).take 8)
        let commitment := (pointer_data.drop 11).take 32
        match celestia_next height commitment with
        | .ok celestia_blob => .ok celestia_blob
        | .error e => .err e
    else .ok pointer_data

end Hana.Mux

namespace Hana.Client

/-- The boot info fields consulted by the client entrypoint prologue in
`single.rs`. -/
structure BootInfo where
  agreed_l2_output_root : List Nat
  claimed_l2_output_root : List Nat
  claimed_l2_block_number : Nat
deriving DecidableEq, Repr

/-- The safe head header as consulted by the prologue. -/
structure SafeHead where
  number : Nat
deriving DecidableEq, Repr

/-- Outcome of the client entrypoint `run`. -/
inductive RunOutcome where
  | ok : RunOutcome
  | invalidClaim (agreed claimed : List Nat) : RunOutcome
  | derived (tag : Nat) : RunOutcome
deriving DecidableEq, Repr

/-- The decision prologue of `run` from `single.rs` (lines 70-91), after the
boot info and safe head have been loaded: a claimed L2 block number below
the safe head yields `InvalidClaim(agreed, claimed)`; otherwise equal agreed
and claimed output roots short-circuit to `Ok`; only otherwise is the
derivation pipeline constructed and run, abstracted by the `derivation`
parameter. -/
def run (boot : BootInfo) (safe_head : SafeHead) (derivation : RunOutcome) :
    RunOutcome :=
  if boot.claimed_l2_block_number < safe_head.number then
    .invalidClaim boot.agreed_l2_output_root boot.claimed_l2_output_root
  else if boot.agreed_l2_output_root = boot.claimed_l2_output_root then
    .ok
  else derivation

end Hana.Client

namespace Hana.Codec

/-- Modelled from the spec: the oracle payload codec delegates to a binary
serde format (`bincode::serialize`) that the spec pins down as a fixed-order
record with all integers little-endian and byte arrays length-prefixed
where variable.  A variable byte array is encoded as a little-endian u64
length followed by the raw bytes. -/
def encBytes (bs : List Nat) : List Nat :=
  leFixed 8 bs.length ++ bs

/-- Modelled from the spec: a vector of byte arrays is encoded as a
little-endian u64 element count followed by each element's length-prefixed
encoding. -/
def encVecBytes (xs : List (List Nat)) : List Nat :=
  leFixed 8 xs.length ++ (xs.map encBytes).flatten

/-- Take exactly `k` bytes from the stream, failing when it is too short. -/
def take? (k : Nat) (s : List Nat) : Option (List Nat × List Nat) :=
  if k ≤ s.length then some (s.take k, s.drop k) else none

/-- Parse a little-endian u64. -/
def pU64 (s : List Nat) : Option (Nat × List Nat) :=
  (take? 8 s).map fun p => (fromLE p.1, p.2)

/-- Parse a little-endian u256. -/
def pU256 (s : List Nat) : Option (Nat × List Nat) :=
  (take? 32 s).map fun p => (fromLE p.1, p.2)

/-- Parse a length-prefixed byte array. -/
def pBytes (s : List Nat) : Option (List Nat × List Nat) :=
  match pU64 s with
  | none => none
  | some (n, r) => take? n r

/-- Parse exactly `n` items with the given item parser. -/
def pList {α : Type} : Nat → (List Nat → Option (α × List Nat)) → List Nat →
    Option (List α × List Nat)
  | 0, _, s => some ([], s)
  | n + 1, p, s =>
    match p s with
    | none => none
    | some (x, r) =>
      match pList n p r with
      | none => none
      | some (xs, r2) => some (x :: xs, r2)

/-- Parse a count-prefixed vector of byte arrays. -/
def pVecBytes (s : List Nat) : Option (List (List Nat) × List Nat) :=
  match pU64 s with
  | none => none
  | some (n, r) => pList n pBytes r

/-- The `OraclePayload` record from `payload.rs`, with its fields in
declaration order.  Fixed-size hashes and the address are raw byte lists of
known length; the two proof objects and the blob are variable byte arrays;
the integers are bounded naturals. -/
structure OraclePayload where
  blob : List Nat
  data_root : List Nat
  data_commitment : List Nat
  data_root_tuple_proof : List Nat
  share_proof : List Nat
  proof_nonce : Nat
  storage_root : List Nat
  storage_proof : List (List Nat)
  account_proof : List (List Nat)
  state_root : List Nat
  blobstream_address : List Nat
  blobstream_balance : Nat
  blobstream_nonce : Nat
  blobstream_code_hash : List Nat
deriving DecidableEq, Repr

/-- Well-formedness of an `OraclePayload` value: the bounds its Rust field
types impose (fixed 32-byte hashes, a 20-byte address, u64/u256 integers,
and lengths representable in a u64 length prefix). -/
def OraclePayload.WF (p : OraclePayload) : Prop :=
  p.blob.length < 2 ^ 64 ∧
  p.data_root.length = 32 ∧
  p.data_commitment.length = 32 ∧
  p.data_root_tuple_proof.length < 2 ^ 64 ∧
  p.share_proof.length < 2 ^ 64 ∧
  p.proof_nonce < 2 ^ 256 ∧
  p.storage_root.length = 32 ∧
  p.storage_proof.length < 2 ^ 64 ∧
  (∀ x ∈ p.storage_proof, x.length < 2 ^ 64) ∧
  p.account_proof.length < 2 ^ 64 ∧
  (∀ x ∈ p.account_proof, x.length < 2 ^ 64) ∧
  p.state_root.length = 32 ∧
  p.blobstream_address.length = 20 ∧
  p.blobstream_balance < 2 ^ 256 ∧
  p.blobstream_nonce < 2 ^ 64 ∧
  p.blobstream_code_hash.length = 32

instance (p : OraclePayload) : Decidable p.WF := by
  unfold OraclePayload.WF
  infer_instance

/-- `OraclePayload::to_bytes` from `payload.rs`: the fields serialized in
declaration order. -/
def OraclePayload.to_bytes (p : OraclePayload) : List Nat :=
  encBytes p.blob ++
  (p.data_root ++
  (p.data_commitment ++
  (encBytes p.data_root_tuple_proof ++
  (encBytes p.share_proof ++
  (leFixed 32 p.proof_nonce ++
  (p.storage_root ++
  (encVecBytes p.storage_proof ++
  (encVecBytes p.account_proof ++
  (p.state_root ++
  (p.blobstream_address ++
  (leFixed 32 p.blobstream_balance ++
  (leFixed 8 p.blobstream_nonce ++
  p.blobstream_code_hash))))))))))))

/-- `OraclePayload::from_bytes` from `payload.rs`: parse the fields in
declaration order (like `bincode::deserialize`, trailing bytes are
ignored). -/
def OraclePayload.from_bytes (s : List Nat) : Option OraclePayload :=
  match pBytes s with
  | none => none
  | some (blob, s) =>
  match take? 32 s with
  | none => none
  | some (data_root, s) =>
  match take? 32 s with
  | none => none
  | some (data_commitment, s) =>
  match pBytes s with
  | none => none
  | some (data_root_tuple_proof, s) =>
  match pBytes s with
  | none => none
  | some (share_proof, s) =>
  match pU256 s with
  | none => none
  | some (proof_nonce, s) =>
  match take? 32 s with
  | none => none
  | some (storage_root, s) =>
  match pVecBytes s with
  | none => none
  | some (storage_proof, s) =>
  match pVecBytes s with
  | none => none
  | some (account_proof, s) =>
  match take? 32 s with
  | none => none
  | some (state_root, s) =>
  match take? 20 s with
  | none => none
  | some (blobstream_address, s) =>
  match pU256 s with
  | none => none
  | some (blobstream_balance, s) =>
  match pU64 s with
  | none => none
  | some (blobstream_nonce, s) =>
  match take? 32 s with
  | none => none
  | some (blobstream_code_hash, _) =>
    some ⟨blob, data_root, data_commitment, data_root_tuple_proof, share_proof,
      proof_nonce, storage_root, storage_proof, account_proof, state_root,
      blobstream_address, blobstream_balance, blobstream_nonce,
      blobstream_code_hash⟩

/-- The `BlobstreamProof` record from `blobstream.rs`, fields in declaration
order; the block header is an opaque variable byte array. -/
structure BlobstreamProof where
  data_root : List Nat
  data_commitment : List Nat
  data_root_tuple_proof : List Nat
  share_proof : List Nat
  proof_nonce : Nat
  storage_root : List Nat
  storage_proof : List (List Nat)
  account_proof : List (List Nat)
  state_root : List Nat
  blobstream_balance : Nat
  blobstream_nonce : Nat
  blobstream_code_hash : List Nat
  block_header : List Nat
deriving DecidableEq, Repr

/-- Well-formedness of a `BlobstreamProof` value, as for `OraclePayload`. -/
def BlobstreamProof.WF (q : BlobstreamProof) : Prop :=
  q.data_root.length = 32 ∧
  q.data_commitment.length = 32 ∧
  q.data_root_tuple_proof.length < 2 ^ 64 ∧
  q.share_proof.length < 2 ^ 64 ∧
  q.proof_nonce < 2 ^ 256 ∧
  q.storage_root.length = 32 ∧
  q.storage_proof.length < 2 ^ 64 ∧
  (∀ x ∈ q.storage_proof, x.length < 2 ^ 64) ∧
  q.account_proof.length < 2 ^ 64 ∧
  (∀ x ∈ q.account_proof, x.length < 2 ^ 64) ∧
  q.state_root.length = 32 ∧
  q.blobstream_balance < 2 ^ 256 ∧
  q.blobstream_nonce < 2 ^ 64 ∧
  q.blobstream_code_hash.length = 32 ∧
  q.block_header.length < 2 ^ 64

instance (q : BlobstreamProof) : Decidable q.WF := by
  unfold BlobstreamProof.WF
  infer_instance

/-- `BlobstreamProof::to_bytes` from `blobstream.rs`. -/
def BlobstreamProof.to_bytes (q : BlobstreamProof) : List Nat :=
  q.data_root ++
  (q.data_commitment ++
  (encBytes q.data_root_tuple_proof ++
  (encBytes q.share_proof ++
  (leFixed 32 q.proof_nonce ++
  (q.storage_root ++
  (encVecBytes q.storage_proof ++
  (encVecBytes q.account_proof ++
  (q.state_root ++
  (leFixed 32 q.blobstream_balance ++
  (leFixed 8 q.blobstream_nonce ++
  (q.blobstream_code_hash ++
  encBytes q.block_header)))))))))))

/-- `BlobstreamProof::from_bytes` from `blobstream.rs`. -/
def BlobstreamProof.from_bytes (s : List Nat) : Option BlobstreamProof :=
  match take? 32 s with
  | none => none
  | some (data_root, s) =>
  match take? 32 s with
  | none => none
  | some (data_commitment, s) =>
  match pBytes s with
  | none => none
  | some (data_root_tuple_proof, s) =>
  match pBytes s with
  | none => none
  | some (share_proof, s) =>
  match pU256 s with
  | none => none
  | some (proof_nonce, s) =>
  match take? 32 s with
  | none => none
  | some (storage_root, s) =>
  match pVecBytes s with
  | none => none
  | some (storage_proof, s) =>
  match pVecBytes s with
  | none => none
  | some (account_proof, s) =>
  match take? 32 s with
  | none => none
  | some (state_root, s) =>
  match pU256 s with
  | none => none
  | some (blobstream_balance, s) =>
  match pU64 s with
  | none => none
  | some (blobstream_nonce, s) =>
  match take? 32 s with
  | none => none
  | some (blobstream_code_hash, s) =>
  match pBytes s with
  | none => none
  | some (block_header, _) =>
    some ⟨data_root, data_commitment, data_root_tuple_proof, share_proof,
      proof_nonce, storage_root, storage_proof, account_proof, state_root,
      blobstream_balance, blobstream_nonce, blobstream_code_hash,
      block_header⟩

end Hana.Codec

namespace Hana.Provider

/-- A concrete decoded payload used to witness the provider gate. -/
def samplePayloadP : OraclePayloadP :=
  ⟨[5], ⟨[], [], [], [], 0, [], [], [], 0, 0, [], ⟨[], []⟩⟩⟩

end Hana.Provider

namespace Hana.Codec

/-- A concrete well-formed `OraclePayload` used to witness the codec laws. -/
def sampleOraclePayload : OraclePayload :=
  ⟨[1, 2, 3], List.replicate 32 0, List.replicate 32 1, [4], [], 7,
    List.replicate 32 2, [[5], []], [[6, 7]], List.replicate 32 3,
    List.replicate 20 4, 11, 13, List.replicate 32 5⟩

/-- A concrete well-formed `BlobstreamProof` used to witness the codec laws. -/
def sampleBlobstreamProof : BlobstreamProof :=
  ⟨List.replicate 32 0, List.replicate 32 1, [4], [], 7,
    List.replicate 32 2, [[5], []], [[6, 7]], List.replicate 32 3,
    11, 13, List.replicate 32 5, [8, 9]⟩

theorem take?_of_len {xs : List Nat} {k : Nat} (h : xs.length = k) (r : List Nat) :
    take? k (xs ++ r) = some (xs, r) := by
  subst h
  simp [take?, List.take_left, List.drop_left]

theorem take?_exact {xs : List Nat} {k : Nat} (h : xs.length = k) :
    take? k xs = some (xs, []) := by
  have := take?_of_len h []
  simpa using this

theorem leFixed_length (w n : Nat) : (leFixed w n).length = w := by
  induction w generalizing n with
  | zero => rfl
  | succ w ih => simp [leFixed, ih]

theorem fromLE_leFixed {w n : Nat} (h : n < 256 ^ w) : fromLE (leFixed w n) = n := by
  induction w generalizing n with
  | zero =>
    interval_cases n
    rfl
  | succ w ih =>
    have hdiv : n / 256 < 256 ^ w := by
      apply Nat.div_lt_of_lt_mul
      calc n < 256 ^ (w + 1) := h
        _ = 256 * 256 ^ w := by ring
  
    simp [leFixed, fromLE, ih hdiv]
    omega

theorem pU64_enc {n : Nat} (h : n < 2 ^ 64) (r : List Nat) :
    pU64 (leFixed 8 n ++ r) = some (n, r) := by
  have hlen : (leFixed 8 n).length = 8 := leFixed_length 8 n
  have h256 : n < 256 ^ 8 := by norm_num at h ⊢; exact h
  simp [pU64, take?_of_len hlen, fromLE_leFixed h256]

theorem pU256_enc {n : Nat} (h : n < 2 ^ 256) (r : List Nat) :
    pU256 (leFixed 32 n ++ r) = some (n, r) := by
  have hlen : (leFixed 32 n).length = 32 := leFixed_length 32 n
  have h256 : n < 256 ^ 32 := by norm_num at h ⊢; exact h
  simp [pU256, take?_of_len hlen, fromLE_leFixed h256]

theorem pU64_exact {n : Nat} (h : n < 2 ^ 64) :
    pU64 (leFixed 8 n) = some (n, []) := by
  have := pU64_enc h []
  simpa using this

theorem pBytes_enc {bs : List Nat} (h : bs.length < 2 ^ 64) (r : List Nat) :
    pBytes (encBytes bs ++ r) = some (bs, r) := by
  simp only [encBytes, List.append_assoc, pBytes, pU64_enc h]
  exact take?_of_len rfl r

theorem pBytes_exact {bs : List Nat} (h : bs.length < 2 ^ 64) :
    pBytes (encBytes bs) = some (bs, []) := by
  have := pBytes_enc h []
  simpa using this

theorem pList_enc {xs : List (List Nat)} (h : ∀ x ∈ xs, x.length < 2 ^ 64)
    (r : List Nat) :
    pList xs.length pBytes ((xs.map encBytes).flatten ++ r) = some (xs, r) := by
  induction xs generalizing r with
  | nil => simp [pList]
  | cons x rest ih =>
    have hx : x.length < 2 ^ 64 := h x (by simp)
    have hrest : ∀ y ∈ rest, y.length < 2 ^ 64 := fun y hy => h y (by simp [hy])
    simp only [List.map_cons, List.flatten_cons, List.length_cons, List.append_assoc]
    simp only [pList, pBytes_enc hx, ih hrest]

theorem pVecBytes_enc {xs : List (List Nat)} (hlen : xs.length < 2 ^ 64)
    (h : ∀ x ∈ xs, x.length < 2 ^ 64) (r : List Nat) :
    pVecBytes (encVecBytes xs ++ r) = some (xs, r) := by
  simp only [encVecBytes, List.append_assoc, pVecBytes, pU64_enc hlen]
  exact pList_enc h r

theorem OraclePayload.roundtrip_oracle (p : OraclePayload) (h : p.WF) :
    OraclePayload.from_bytes (OraclePayload.to_bytes p) = some p := by
  obtain ⟨h1, h2, h3, h4, h5, h6, h7, h8, h9, h10, h11, h12, h13, h14, h15, h16⟩ := h
  simp only [OraclePayload.to_bytes, OraclePayload.from_bytes,
    pBytes_enc h1, take?_of_len h2, take?_of_len h3, pBytes_enc h4,
    pBytes_enc h5, pU256_enc h6, take?_of_len h7, pVecBytes_enc h8 h9,
    pVecBytes_enc h10 h11, take?_of_len h12, take?_of_len h13,
    pU256_enc h14, pU64_enc h15, take?_exact h16]

theorem BlobstreamProof.roundtrip_blobstream (q : BlobstreamProof) (h : q.WF) :
    BlobstreamProof.from_bytes (BlobstreamProof.to_bytes q) = some q := by
  obtain ⟨h1, h2, h3, h4, h5, h6, h7, h8, h9, h10, h11, h12, h13, h14, h15⟩ := h
  simp only [BlobstreamProof.to_bytes, BlobstreamProof.from_bytes,
    take?_of_len h1, take?_of_len h2, pBytes_enc h3, pBytes_enc h4,
    pU256_enc h5, take?_of_len h6, pVecBytes_enc h7 h8, pVecBytes_enc h9 h10,
    take?_of_len h11, pU256_enc h12, pU64_enc h13, take?_of_len h14,
    pBytes_exact h15]

end Hana.Codec

open Hana Hana.Blobstream Hana.Pipe in
/-- Claim C2: the expected account leaf that `verify_data_commitment_storage`
checks against the state root is claimed to be the RLP-encoded list of the
four Blobstream account fields in exactly the order
`[nonce, balance, storage_root, code_hash]`.  The code instead passes the
pre-encoded fields to `encode_list` in the order
`[nonce, balance, code_hash, storage_root]` and re-encodes each one, so the
leaf it builds differs from the claimed encoding: shown here at nonce 0,
balance 0, code hash `0x0101...01`, storage root `0x0202...02`. -/
theorem account_leaf_diverges_from_ethereum_encoding :
    Hana.Blobstream.account_leaf 0 0 (List.replicate 32 1) (List.replicate 32 2) ≠
      Hana.Blobstream.account_leaf_spec 0 0 (List.replicate 32 2) (List.replicate 32 1) ∧
    (Hana.Blobstream.account_leaf 0 0 (List.replicate 32 1) (List.replicate 32 2)).length = 78 ∧
    (Hana.Blobstream.account_leaf_spec 0 0 (List.replicate 32 2) (List.replicate 32 1)).length = 70 := by
  refine ⟨by decide, by decide, by decide⟩

/-- Claim C3: the storage-slot leaf that `verify_data_commitment_storage`
checks is claimed to be the canonical RLP encoding of the commitment with
leading zero bytes trimmed (all-zero commitment encoding to `0x80`).  The
code instead always prefixes the raw 32 bytes with `0xa0`: at the all-zero
commitment the code's leaf is `0xa0` followed by 32 zero bytes while the
canonical encoding is the single byte `0x80`. -/
theorem storage_leaf_not_canonical_rlp :
    Hana.Blobstream.storage_leaf (List.replicate 32 0) = 0xa0 :: List.replicate 32 0 ∧
    Hana.Blobstream.storage_leaf_spec (List.replicate 32 0) = [0x80] ∧
    Hana.Blobstream.storage_leaf (List.replicate 32 0) ≠
      Hana.Blobstream.storage_leaf_spec (List.replicate 32 0) := by
  refine ⟨rfl, rfl, by decide⟩

/-- Claim C6 (counterexample): the claim says the canonical chain-id table
accepts Holesky and Scroll mainnet; `BlobstreamChainIds::from_u64` returns
`None` for both (Holesky 17000, Scroll 534352). -/
theorem chain_table_missing_holesky :
    Hana.Blobstream.BlobstreamChainIds.from_u64 17000 = none ∧
    Hana.Blobstream.BlobstreamChainIds.from_u64 534352 = none := by
  exact ⟨rfl, rfl⟩

/-- Claim C6 (amended): the canonical chain-id table accepts exactly
Ethereum mainnet (1), Arbitrum One (42161), Base (8453), Sepolia
(11155111), Arbitrum Sepolia (421614), and Base Sepolia (84532), and
returns `None` for every other chain id (in particular Scroll mainnet and
Holesky are absent). -/
theorem chain_table_exact_six :
    ∀ id : Nat, (Hana.Blobstream.BlobstreamChainIds.from_u64 id).isSome = true ↔
      (id = 1 ∨ id = 42161 ∨ id = 8453 ∨ id = 11155111 ∨ id = 421614 ∨ id = 84532) := by
  intro id
  unfold Hana.Blobstream.BlobstreamChainIds.from_u64
  split_ifs <;> simp_all

/-- Claim C10: the two independently defined chain-id tables (blobstream
crate and proofs crate) are extensionally equal: for every u64 chain id,
`from_u64` is `Some` in one iff in the other, and the resolved addresses
agree byte for byte. -/
theorem chain_tables_extensionally_equal :
    ∀ id : Nat,
      (Hana.Blobstream.BlobstreamChainIds.from_u64 id).isSome =
        (Hana.ProofsTypes.BlobstreamChainIds.from_u64 id).isSome ∧
      Option.map Hana.Blobstream.BlobstreamChainIds.blostream_address
          (Hana.Blobstream.BlobstreamChainIds.from_u64 id) =
        Option.map Hana.ProofsTypes.BlobstreamChainIds.blostream_address
          (Hana.ProofsTypes.BlobstreamChainIds.from_u64 id) := by
  intro id
  unfold Hana.Blobstream.BlobstreamChainIds.from_u64
    Hana.ProofsTypes.BlobstreamChainIds.from_u64
  split_ifs <;> exact ⟨rfl, by decide⟩

/-- Claim C8: in the client entrypoint `run`, a boot info whose claimed L2
block number is below the safe head yields
`InvalidClaim(agreed_l2_output_root, claimed_l2_output_root)` regardless of
what the derivation pipeline would produce (it is never constructed), and
in particular also when the agreed and claimed output roots coincide, since
this check precedes the trace-extension short-circuit. -/
theorem run_invalid_claim_by_block_number
    (boot : Hana.Client.BootInfo) (safe_head : Hana.Client.SafeHead)
    (d1 d2 : Hana.Client.RunOutcome)
    (h : boot.claimed_l2_block_number < safe_head.number) :
    Hana.Client.run boot safe_head d1 =
      .invalidClaim boot.agreed_l2_output_root boot.claimed_l2_output_root ∧
    Hana.Client.run boot safe_head d1 = Hana.Client.run boot safe_head d2 := by
  constructor <;> simp [Hana.Client.run, h]

/-- Claim C8 (witness): a boot info with claimed block number 0, safe head
5 and equal output roots is rejected as an invalid claim, not short-circuited. -/
theorem run_invalid_claim_by_block_number_witness :
    (0 : Nat) < 5 ∧
    Hana.Client.run ⟨[3], [3], 0⟩ ⟨5⟩ .ok = .invalidClaim [3] [3] :=
  ⟨by decide,
    (run_invalid_claim_by_block_number ⟨[3], [3], 0⟩ ⟨5⟩ .ok (.derived 0) (by decide)).1⟩

/-- Claim C9: the oracle payload codec round-trips: for every well-formed
`OraclePayload` value `p`, `from_bytes (to_bytes p)` succeeds and returns
`p`, and likewise for every well-formed `BlobstreamProof` value. -/
theorem oracle_payload_codec_roundtrip :
    (∀ p : Hana.Codec.OraclePayload, p.WF →
      Hana.Codec.OraclePayload.from_bytes (Hana.Codec.OraclePayload.to_bytes p) = some p) ∧
    (∀ q : Hana.Codec.BlobstreamProof, q.WF →
      Hana.Codec.BlobstreamProof.from_bytes (Hana.Codec.BlobstreamProof.to_bytes q) = some q) :=
  ⟨Hana.Codec.OraclePayload.roundtrip_oracle, Hana.Codec.BlobstreamProof.roundtrip_blobstream⟩

/-- Claim C9 (witness): the codec laws at concrete payloads. -/
theorem oracle_payload_codec_roundtrip_witness :
    Hana.Codec.sampleOraclePayload.WF ∧
    Hana.Codec.OraclePayload.from_bytes
      (Hana.Codec.OraclePayload.to_bytes Hana.Codec.sampleOraclePayload) =
      some Hana.Codec.sampleOraclePayload ∧
    Hana.Codec.sampleBlobstreamProof.WF ∧
    Hana.Codec.BlobstreamProof.from_bytes
      (Hana.Codec.BlobstreamProof.to_bytes Hana.Codec.sampleBlobstreamProof) =
      some Hana.Codec.sampleBlobstreamProof :=
  ⟨by decide, oracle_payload_codec_roundtrip.1 Hana.Codec.sampleOraclePayload (by decide),
    by decide, oracle_payload_codec_roundtrip.2 Hana.Codec.sampleBlobstreamProof (by decide)⟩

/-- Claim C5: `CelestiaDASource::next` is claimed to call its fetcher only
when the internal buffer is empty.  The code calls `load_blobs` (and hence
the fetcher) unconditionally on every `next`: with a non-empty buffer
`[[7]]` the buffered head is returned but the fetcher still runs once (the
fetched blob `[9]` is queued behind it), from the empty state each `next`
also fetches once, and two consecutive `next` calls with the same height
and commitment perform two fetches, not one. -/
theorem source_next_always_fetches :
    Hana.Source.next (fun _ _ => .ok [9]) ⟨[[7]]⟩ 5 [] = (.ok [7], ⟨[[9]]⟩, 1) ∧
    Hana.Source.next (fun _ _ => .ok [9]) ⟨[]⟩ 5 [] = (.ok [9], ⟨[]⟩, 1) ∧
    (Hana.Source.next (fun _ _ => .ok [9]) ⟨[]⟩ 5 []).2.2 +
      (Hana.Source.next (fun _ _ => .ok [9])
        (Hana.Source.next (fun _ _ => .ok [9]) ⟨[]⟩ 5 []).2.1 5 []).2.2 = 2 := by
  exact ⟨rfl, rfl, rfl⟩

open Hana.Blobstream in
/-- Claim C7 (counterexample): the claim says a header-hash mismatch makes
`verify_data_commitment_storage` fail with an error result; at a concrete
input whose recomputed header hash (all zeros) differs from the supplied
L1 block hash (all ones) the function instead hits the `assert!` and
panics — no error result is returned. -/
theorem header_mismatch_panics_not_error :
    verify_data_commitment_storage (fun _ => List.replicate 32 0) (fun _ => [])
      (fun _ _ _ _ => .ok ()) (List.replicate 32 0) [] [] 0 (List.replicate 32 0)
      [] 0 0 (List.replicate 32 0) ⟨List.replicate 32 0, []⟩ (List.replicate 32 1)
      = .panic "computed block hash must match host l1 head" ∧
    (verify_data_commitment_storage (fun _ => List.replicate 32 0) (fun _ => [])
      (fun _ _ _ _ => .ok ()) (List.replicate 32 0) [] [] 0 (List.replicate 32 0)
      [] 0 0 (List.replicate 32 0) ⟨List.replicate 32 0, []⟩ (List.replicate 32 1)).isErr
      = false := by
  exact ⟨by decide, by decide⟩

open Hana.Blobstream in
/-- Claim C7 (amended): whenever the recomputed hash of the block header
differs from `l1_block_hash`, `verify_data_commitment_storage` panics on
the `assert!` with message "computed block hash must match host l1 head";
it neither returns `Ok` nor proceeds to the account or storage proof
checks (its result does not depend on the proof arguments). -/
theorem header_mismatch_amended
    (hash_slow : L1Header → List Nat) (keccak256 : List Nat → List Nat)
    (verify_proof : List Nat → List Nat → Option (List Nat) → List (List Nat) → Except String Unit)
    (storage_root : List Nat) (storage_proof account_proof : List (List Nat))
    (commitment_nonce : Nat) (expected_commitment expected_blobstream_address : List Nat)
    (blobstream_balance blobstream_nonce : Nat) (blobstream_code_hash : List Nat)
    (block_header : L1Header) (l1_block_hash : List Nat)
    (h : hash_slow block_header ≠ l1_block_hash) :
    verify_data_commitment_storage hash_slow keccak256 verify_proof storage_root
      storage_proof account_proof commitment_nonce expected_commitment
      expected_blobstream_address blobstream_balance blobstream_nonce
      blobstream_code_hash block_header l1_block_hash
      = .panic "computed block hash must match host l1 head" := by
  simp [verify_data_commitment_storage, h]

open Hana.Blobstream in
/-- Claim C7 (amended, witness): the amended statement applied at a
concrete mismatching input. -/
theorem header_mismatch_amended_witness :
    ((fun _ : L1Header => ([0] : List Nat)) ⟨[], []⟩) ≠ [1] ∧
    verify_data_commitment_storage (fun _ => [0]) (fun _ => [])
      (fun _ _ _ _ => .ok ()) [] [] [] 0 [] [] 0 0 [] ⟨[], []⟩ [1]
      = .panic "computed block hash must match host l1 head" :=
  ⟨by decide,
    header_mismatch_amended (fun _ => [0]) (fun _ => []) (fun _ _ _ _ => .ok ())
      [] [] [] 0 [] [] 0 0 [] ⟨[], []⟩ [1] (by decide)⟩

/-- Claim C4 (counterexample): the claim says a frame that is not forwarded
to Celestia is returned unchanged and that malformed pointer bytes surface
as a `Critical` error; the 3-byte frame `[0, 0, 0x0c]` carries the Celestia
sentinel but is too short for the height slice, and
`CelestiaDADataSource::next` panics on it instead of returning the frame or
any `Critical` error. -/
theorem mux_short_pointer_frame_panics :
    Hana.Mux.next (.ok [0, 0, 12]) (fun _ _ => .ok [1])
      = .panic "slice index out of range" ∧
    (Hana.Mux.next (.ok [0, 0, 12]) (fun _ _ => .ok [1])).isCritical = false ∧
    Hana.Mux.next (.ok [0, 0, 12]) (fun _ _ => .ok [1]) ≠ .ok [0, 0, 12] := by
  exact ⟨rfl, rfl, by decide⟩

open Hana.Pipe in
/-- Claim C4 (amended): for a frame of at least 3 bytes whose byte at
offset 2 is not `0x0c`, `next` returns the frame unchanged; for a frame of
at least 43 bytes whose byte at offset 2 is `0x0c`, `next` forwards to the
Celestia source with the height read little-endian from `frame[3..11]` and
the commitment from `frame[11..43]`; and a malformed frame (shorter than 3
bytes, or carrying the sentinel but shorter than 43 bytes) causes an
unguarded index/slice panic rather than a `Critical` error. -/
theorem mux_routing_amended
    (cel : Nat → List Nat → Except PipelineErrorKind (List Nat))
    (frame : List Nat) :
    (3 ≤ frame.length → frame.getD 2 0 ≠ 12 →
      Hana.Mux.next (.ok frame) cel = .ok frame) ∧
    (43 ≤ frame.length → frame.getD 2 0 = 12 →
      Hana.Mux.next (.ok frame) cel =
        match cel (Hana.fromLE ((frame.drop 3).take 8)) ((frame.drop 11).take 32) with
        | .ok b => .ok b
        | .error e => .err e) ∧
    (frame.length < 3 ∨ (frame.getD 2 0 = 12 ∧ frame.length < 43) →
      ∃ m, Hana.Mux.next (.ok frame) cel = .panic m) := by
  refine ⟨?_, ?_, ?_⟩
  · intro h3 hne
    simp only [Hana.Mux.next]
    rw [if_neg (by omega), if_neg hne]
  · intro h43 heq
    simp only [Hana.Mux.next]
    rw [if_neg (by omega), if_pos heq, if_neg (by omega), if_neg (by omega)]
  · intro h
    rcases h with h | ⟨heq, hlt⟩
    · refine ⟨"index out of bounds", ?_⟩
      simp only [Hana.Mux.next]
      rw [if_pos (by omega)]
    · by_cases hlen : frame.length ≤ 2
      · refine ⟨"index out of bounds", ?_⟩
        simp only [Hana.Mux.next]
        rw [if_pos hlen]
      · by_cases h11 : frame.length < 11
        · refine ⟨"slice index out of range", ?_⟩
          simp only [Hana.Mux.next]
          rw [if_neg hlen, if_pos heq, if_pos h11]
        · refine ⟨"slice index out of range", ?_⟩
          simp only [Hana.Mux.next]
          rw [if_neg hlen, if_pos heq, if_neg h11, if_pos (by omega)]

/-- Claim C4 (amended, witness): a 43-byte frame with the `0x0c` sentinel,
height 5 encoded little-endian, and a commitment of 32 `7` bytes is
forwarded to the Celestia source, whose blob `[1]` is returned. -/
theorem mux_routing_amended_witness :
    43 ≤ ([0, 0, 12] ++ Hana.leFixed 8 5 ++ List.replicate 32 7 : List Nat).length ∧
    ([0, 0, 12] ++ Hana.leFixed 8 5 ++ List.replicate 32 7 : List Nat).getD 2 0 = 12 ∧
    Hana.Mux.next (.ok ([0, 0, 12] ++ Hana.leFixed 8 5 ++ List.replicate 32 7))
      (fun _ _ => .ok [1]) = .ok [1] := by
  refine ⟨by decide, by decide, ?_⟩
  have h := (mux_routing_amended (fun _ _ => .ok [1])
    ([0, 0, 12] ++ Hana.leFixed 8 5 ++ List.replicate 32 7)).2.1 (by decide) (by decide)
  simpa using h

open Hana.Blobstream Hana.Provider in
/-- Claim C1 (amended): `OracleCelestiaProvider::blob_get` returns `Ok(b)`
exactly when the decoded payload passes all three verifications — the
Blobstream storage/account commitment check against `boot.l1_head`
(returning `Ok`), the share proof against the data root, and the
data-root-tuple proof of `encode_data_root_tuple(height, data_root)`
against the data commitment — and then `b` is `payload.blob`; it returns
an error exactly when one of the three checks is the first to fail with an
error result; and when the commitment check fails its `l1_head` assertion
it does not return an error: `blob_get` panics with the propagated
assertion message (so no blob is returned on that path either). -/
theorem blob_get_verification_gate
    (from_bytes : List Nat → Option OraclePayloadP)
    (share_verify : List Nat → List Nat → Except String Unit)
    (tuple_verify : List Nat → List Nat → List Nat → Except String Unit)
    (hash_slow : L1Header → List Nat)
    (keccak256 : List Nat → List Nat)
    (verify_proof : List Nat → List Nat → Option (List Nat) → List (List Nat) → Except String Unit)
    (height : Nat) (commitment : List Nat) (oracle_result : List Nat)
    (boot : BootInfo) (payload : OraclePayloadP) (addr : List Nat)
    (hdec : from_bytes oracle_result = some payload)
    (haddr : blobstream_address boot.l1_chain_id = some addr) :
    (∀ b, blob_get from_bytes share_verify tuple_verify hash_slow keccak256
        verify_proof height commitment oracle_result boot = .ok b ↔
      (verify_data_commitment_storage hash_slow keccak256 verify_proof
          payload.blobstream_proof.storage_root
          payload.blobstream_proof.storage_proof
          payload.blobstream_proof.account_proof
          payload.blobstream_proof.proof_nonce
          payload.blobstream_proof.data_commitment addr
          payload.blobstream_proof.blobstream_balance
          payload.blobstream_proof.blobstream_nonce
          payload.blobstream_proof.blobstream_code_hash
          payload.blobstream_proof.block_header boot.l1_head = .ok ∧
        share_verify payload.blobstream_proof.share_proof
          payload.blobstream_proof.data_root = .ok () ∧
        tuple_verify payload.blobstream_proof.data_root_tuple_proof
          (encode_data_root_tuple height payload.blobstream_proof.data_root)
          payload.blobstream_proof.data_commitment = .ok () ∧
        b = payload.blob)) ∧
    ((blob_get from_bytes share_verify tuple_verify hash_slow keccak256
        verify_proof height commitment oracle_result boot).isErr = true ↔
      ((verify_data_commitment_storage hash_slow keccak256 verify_proof
          payload.blobstream_proof.storage_root
          payload.blobstream_proof.storage_proof
          payload.blobstream_proof.account_proof
          payload.blobstream_proof.proof_nonce
          payload.blobstream_proof.data_commitment addr
          payload.blobstream_proof.blobstream_balance
          payload.blobstream_proof.blobstream_nonce
          payload.blobstream_proof.blobstream_code_hash
          payload.blobstream_proof.block_header boot.l1_head).isErr = true ∨
        (verify_data_commitment_storage hash_slow keccak256 verify_proof
          payload.blobstream_proof.storage_root
          payload.blobstream_proof.storage_proof
          payload.blobstream_proof.account_proof
          payload.blobstream_proof.proof_nonce
          payload.blobstream_proof.data_commitment addr
          payload.blobstream_proof.blobstream_balance
          payload.blobstream_proof.blobstream_nonce
          payload.blobstream_proof.blobstream_code_hash
          payload.blobstream_proof.block_header boot.l1_head = .ok ∧
         share_verify payload.blobstream_proof.share_proof
           payload.blobstream_proof.data_root ≠ .ok ()) ∨
        (verify_data_commitment_storage hash_slow keccak256 verify_proof
          payload.blobstream_proof.storage_root
          payload.blobstream_proof.storage_proof
          payload.blobstream_proof.account_proof
          payload.blobstream_proof.proof_nonce
          payload.blobstream_proof.data_commitment addr
          payload.blobstream_proof.blobstream_balance
          payload.blobstream_proof.blobstream_nonce
          payload.blobstream_proof.blobstream_code_hash
          payload.blobstream_proof.block_header boot.l1_head = .ok ∧
         share_verify payload.blobstream_proof.share_proof
           payload.blobstream_proof.data_root = .ok () ∧
         tuple_verify payload.blobstream_proof.data_root_tuple_proof
           (encode_data_root_tuple height payload.blobstream_proof.data_root)
           payload.blobstream_proof.data_commitment ≠ .ok ()))) ∧
    (∀ m, blob_get from_bytes share_verify tuple_verify hash_slow keccak256
        verify_proof height commitment oracle_result boot = .panic m ↔
      verify_data_commitment_storage hash_slow keccak256 verify_proof
        payload.blobstream_proof.storage_root
        payload.blobstream_proof.storage_proof
        payload.blobstream_proof.account_proof
        payload.blobstream_proof.proof_nonce
        payload.blobstream_proof.data_commitment addr
        payload.blobstream_proof.blobstream_balance
        payload.blobstream_proof.blobstream_nonce
        payload.blobstream_proof.blobstream_code_hash
        payload.blobstream_proof.block_header boot.l1_head = .panic m) := by
  rcases hV : verify_data_commitment_storage hash_slow keccak256 verify_proof
      payload.blobstream_proof.storage_root
      payload.blobstream_proof.storage_proof
      payload.blobstream_proof.account_proof
      payload.blobstream_proof.proof_nonce
      payload.blobstream_proof.data_commitment addr
      payload.blobstream_proof.blobstream_balance
      payload.blobstream_proof.blobstream_nonce
      payload.blobstream_proof.blobstream_code_hash
      payload.blobstream_proof.block_header boot.l1_head with _ | e | m <;>
    rcases hS : share_verify payload.blobstream_proof.share_proof
      payload.blobstream_proof.data_root with e2 | u <;>
    rcases hT : tuple_verify payload.blobstream_proof.data_root_tuple_proof
      (encode_data_root_tuple height payload.blobstream_proof.data_root)
      payload.blobstream_proof.data_commitment with e3 | v <;>
    refine ⟨?_, ?_, ?_⟩ <;>
    simp [blob_get, hdec, haddr, hV, hS, hT, BlobGetResult.isErr, VResult.isErr, eq_comm]

open Hana.Blobstream Hana.Provider in
/-- Claim C1 (counterexample): the claim says any failure of the three
checks — including the Blobstream storage/account commitment check against
`boot.l1_head` — makes `blob_get` return an error.  With the sample
payload, a header hashing to `[0]` and a trusted `l1_head` of `[9]`, that
commitment check fails on its header assertion and `blob_get` panics with
the propagated assertion message: no error is returned (and no blob). -/
theorem blob_get_header_assert_panics_not_error :
    Hana.Provider.blob_get (fun _ => some samplePayloadP) (fun _ _ => .ok ())
      (fun _ _ _ => .ok ()) (fun _ => [0]) (fun _ => []) (fun _ _ _ _ => .ok ())
      3 [] [] ⟨[9], 1⟩ = .panic "computed block hash must match host l1 head" ∧
    (Hana.Provider.blob_get (fun _ => some samplePayloadP) (fun _ _ => .ok ())
      (fun _ _ _ => .ok ()) (fun _ => [0]) (fun _ => []) (fun _ _ _ _ => .ok ())
      3 [] [] ⟨[9], 1⟩).isErr = false := by
  exact ⟨by decide, by decide⟩

open Hana.Blobstream Hana.Provider in
/-- Claim C1 (witness): with a decoder yielding the sample payload, all
three verifiers succeeding, and a boot info for chain id 1 whose L1 head
matches the recomputed header hash, `blob_get` returns the payload's blob. -/
theorem blob_get_verification_gate_witness :
    Hana.Provider.blob_get (fun _ => some samplePayloadP) (fun _ _ => .ok ())
      (fun _ _ _ => .ok ()) (fun _ => [9]) (fun _ => []) (fun _ _ _ _ => .ok ())
      3 [] [] ⟨[9], 1⟩ = .ok [5] := by
  exact ((blob_get_verification_gate (fun _ => some samplePayloadP)
    (fun _ _ => .ok ()) (fun _ _ _ => .ok ()) (fun _ => [9]) (fun _ => [])
    (fun _ _ _ _ => .ok ()) 3 [] [] ⟨[9], 1⟩ samplePayloadP
    (BlobstreamChainIds.blostream_address BlobstreamChainIds.EthereumMainnet)
    rfl rfl).1 [5]).mpr ⟨by decide, rfl, rfl, rfl⟩

/-- Claim C6 (amended, witness): Base (8453) is accepted by the table. -/
theorem chain_table_exact_six_witness :
    (Hana.Blobstream.BlobstreamChainIds.from_u64 8453).isSome = true :=
  (chain_table_exact_six 8453).mpr (Or.inr (Or.inr (Or.inl rfl)))

/-- Claim C10 (witness): the two tables agree at Ethereum mainnet (1). -/
theorem chain_tables_extensionally_equal_witness :
    Option.map Hana.Blobstream.BlobstreamChainIds.blostream_address
        (Hana.Blobstream.BlobstreamChainIds.from_u64 1) =
      Option.map Hana.ProofsTypes.BlobstreamChainIds.blostream_address
        (Hana.ProofsTypes.BlobstreamChainIds.from_u64 1) :=
  (chain_tables_extensionally_equal 1).2
